import Mathlib

/-!
Shallow embedding of the movement/reservation core of the `vehiculos`
repository (files `src/scripts/utils.py` and `src/app.py`).

Conventions of the embedding:
* SQLite tables become lists of records; `id` columns are `Nat`,
  nullable columns are `Option`, `INTEGER` booleans are `Bool`.
* Dates handled as ISO strings by the code stay `String`; the helpers
  `_hoy_iso()` / `datetime.now()` become an explicit `hoy` parameter.
  For the business-day arithmetic of the loan window a date is a `Nat`
  counting days from a fixed Monday, so `d % 7` is Python's
  `date.weekday()` (0 = Monday).
* Python `str.strip` is the executable `recorta`; Python truthiness of a nullable
  text column (always either NULL or a non-empty date string in these
  code paths) is `Option.isSome`.
* Each data-access method returns its `(ok, message)` pair together
  with the resulting database; failure paths close the connection
  without committing, so they return the database unchanged.
-/

/-- Row of the `usuarios` table (fields used by the core paths). -/
structure Usuario where
  id : Nat
  nombre : String
  activo : Bool
deriving DecidableEq

/-- Row of the `vehiculos` table. -/
structure Vehiculo where
  id : Nat
  placa : String
  marca : String
  modelo : String
  activo : Bool
deriving DecidableEq

/-- Row of the `auditores` table. -/
structure Auditor where
  id : Nat
  nombre : String
  activo : Bool
deriving DecidableEq

/-- Row of the `entes` table. -/
structure Ente where
  clave : String
  nombre : String
  activo : Bool
deriving DecidableEq

/-- Row of the `movimientos` table, per the columns of the INSERT in
`crear_movimiento` (utils.py lines 1507-1535) and the schema
(lines 263-289). The receipt identifier column `folio` is named
`folio_acta` here. -/
structure Movimiento where
  id : Nat
  folio_acta : String
  usuario_id : Nat
  ente_clave : String
  fecha_solicitud : String
  fecha_entrega : Option String
  fecha_devolucion : Option String
  cantidad : Int
  receptor_nombre : String
  firma_recepcion : Option String
  devuelto : Bool
  observaciones : Option String
  resguardante_nombre : String
  resguardante_id : Option Nat
  placa_unidad : String
  marca : String
  modelo : String
  responsable_vehiculo : String
  vehiculo_id : Option Nat
  responsable_id : Option Nat
  no_pasajeros : Nat
  ruta_destino : String
  motivo_salida : String
deriving DecidableEq, Inhabited

/-- Row of the append-only `movimientos_eventos` ledger
(schema lines 344-352, written only by `_registrar_evento`). -/
structure Evento where
  movimiento_id : Nat
  usuario_id : Nat
  evento : String
  fecha : String
  notas : String
deriving DecidableEq

/-- The relational store, one list per table; `eventos` is kept in
insertion order (the ledger is append-only). -/
structure DB where
  usuarios : List Usuario
  vehiculos : List Vehiculo
  auditores : List Auditor
  entes : List Ente
  usuarios_vehiculos : List (Nat × Nat)
  movimientos : List Movimiento
  movimientos_auditores : List (Nat × Nat)
  movimientos_destinos : List (Nat × String × Nat)
  eventos : List Evento
deriving DecidableEq

/-- SELECT of a movement by id (`SELECT ... FROM movimientos WHERE id=?`). -/
def buscar_movimiento (db : DB) (mid : Nat) : Option Movimiento :=
  db.movimientos.find? (fun m => m.id == mid)

/-- The ledger lookup `SELECT 1 FROM movimientos_eventos WHERE
movimiento_id=? AND evento='RECHAZADO' LIMIT 1` used by
`marcar_entregado` and `marcar_rechazado`. -/
def tiene_rechazado (db : DB) (mid : Nat) : Bool :=
  db.eventos.any (fun e => e.movimiento_id == mid && e.evento == "RECHAZADO")

/-- `_registrar_evento` (utils.py lines 1899-1903): pure append of one
ledger row, `notas` always passed as the empty string by the callers. -/
def registrar_evento (db : DB) (mid uid : Nat) (ev fecha : String) : DB :=
  { db with eventos := db.eventos ++ [⟨mid, uid, ev, fecha, ""⟩] }

/-- Result of one lifecycle operation: the Python `(bool, str)` pair
plus the store it leaves behind. -/
structure Salida where
  ok : Bool
  msg : String
  db : DB
deriving DecidableEq

/-- `marcar_entregado` (utils.py lines 1793-1826). Checks, in order:
movement exists; no RECHAZADO ledger event; `fecha_entrega` not yet
set. On success sets `fecha_entrega` to today and appends ENTREGADO. -/
def marcar_entregado (db : DB) (mid uid : Nat) (hoy : String) : Salida :=
  match buscar_movimiento db mid with
  | none => ⟨false, "Movimiento no encontrado.", db⟩
  | some fila =>
    if tiene_rechazado db mid then ⟨false, "El movimiento fue rechazado.", db⟩
    else if fila.fecha_entrega.isSome then ⟨false, "El movimiento ya fue entregado.", db⟩
    else
      let actualizados := db.movimientos.map
        (fun m => if m.id == mid then { m with fecha_entrega := some hoy } else m)
      let db2 := { db with movimientos := actualizados }
      ⟨true, "Entrega registrada.", registrar_evento db2 mid uid "ENTREGADO" hoy⟩

/-- `marcar_rechazado` (utils.py lines 1828-1856). Checks, in order:
movement exists; neither delivered nor returned; no previous RECHAZADO
event. On success only appends a RECHAZADO ledger event. -/
def marcar_rechazado (db : DB) (mid uid : Nat) (hoy : String) : Salida :=
  match buscar_movimiento db mid with
  | none => ⟨false, "Movimiento no encontrado.", db⟩
  | some fila =>
    if fila.fecha_entrega.isSome || fila.devuelto then
      ⟨false, "No se puede rechazar un movimiento entregado.", db⟩
    else if tiene_rechazado db mid then ⟨false, "El movimiento ya fue rechazado.", db⟩
    else ⟨true, "Movimiento rechazado.", registrar_evento db mid uid "RECHAZADO" hoy⟩

/-- `marcar_devuelto` (utils.py lines 1858-1884). Checks, in order:
movement exists; not already returned; delivered. On success sets
`fecha_devolucion` to today, sets the `devuelto` flag and appends a
DEVUELTO ledger event. -/
def marcar_devuelto (db : DB) (mid uid : Nat) (hoy : String) : Salida :=
  match buscar_movimiento db mid with
  | none => ⟨false, "Movimiento no encontrado.", db⟩
  | some fila =>
    if fila.devuelto then ⟨false, "El movimiento ya está devuelto.", db⟩
    else if fila.fecha_entrega.isNone then
      ⟨false, "No se puede devolver sin entrega registrada.", db⟩
    else
      let actualizados := db.movimientos.map
        (fun m => if m.id == mid then
          { m with fecha_devolucion := some hoy, devuelto := true } else m)
      let db2 := { db with movimientos := actualizados }
      ⟨true, "Devolución registrada.", registrar_evento db2 mid uid "DEVUELTO" hoy⟩

/-- Zero-padding to width 2, as in `strftime` month/day fields. -/
def pad2 (n : Nat) : String :=
  if n < 10 then "0" ++ toString n else toString n

/-- Zero-padding to width 4, as in the Python format `04d` used for the
receipt sequence number and as in the `strftime` year field. -/
def pad4 (n : Nat) : String :=
  if n < 10 then "000" ++ toString n
  else if n < 100 then "00" ++ toString n
  else if n < 1000 then "0" ++ toString n
  else toString n

/-- A calendar date, standing for the Python `datetime.date` values the
code formats. `iso` is `strftime` with format Y-m-d, `compacta` is
`strftime` with format Ymd. -/
structure Fecha where
  yyyy : Nat
  mm : Nat
  dd : Nat
deriving DecidableEq

def Fecha.iso (f : Fecha) : String :=
  pad4 f.yyyy ++ "-" ++ pad2 f.mm ++ "-" ++ pad2 f.dd

def Fecha.compacta (f : Fecha) : String :=
  pad4 f.yyyy ++ pad2 f.mm ++ pad2 f.dd

/-- The `SELECT COUNT(*) FROM movimientos WHERE fecha_solicitud=?`
query of `_generar_folio`, counting stored movements whose
`fecha_solicitud` column equals today's ISO date. -/
def cuenta_solicitudes_hoy (db : DB) (hoyIso : String) : Nat :=
  (db.movimientos.filter (fun m => m.fecha_solicitud == hoyIso)).length

/-- `_generar_folio` (utils.py lines 1905-1912): receipt id built from
`datetime.now()` in compact form and the count of movements whose
`fecha_solicitud` equals today, plus one, zero-padded to 4 digits. -/
def generar_folio_acta (db : DB) (hoy : Fecha) : String :=
  "ACTA-" ++ hoy.compacta ++ "-" ++ pad4 (cuenta_solicitudes_hoy db hoy.iso + 1)

/-- `cur.lastrowid` for the AUTOINCREMENT `movimientos.id` column: one
more than the largest id present. -/
def proximo_id (db : DB) : Nat :=
  (db.movimientos.map (fun m => m.id)).foldr max 0 + 1

/-- The values `crear_movimiento` has in scope at line 1502, after all
validations succeeded: resolved user, vehicle and responsible party,
normalized passenger and destination lists, and the raw form fields. -/
structure SolicitudValidada where
  usuario_id : Nat
  ente_clave : String
  cantidad : Int
  receptor_nombre : String
  firma_recepcion : Option String
  observaciones : Option String
  resguardante_nombre : String
  resguardante_id : Nat
  vehiculo_id : Nat
  vehiculo_placa : String
  vehiculo_marca : String
  vehiculo_modelo : String
  responsable_nombre : String
  responsable_id_db : Option Nat
  no_pasajeros_final : Nat
  pasajeros_ids : List Nat
  destinos : List String
  motivo_salida : String
  fecha_solicitud : Option Fecha
deriving DecidableEq

/-- Whitespace characters removed by Python `str.strip()` (the ASCII
ones; no inputs in this system carry other Unicode spacing). -/
def es_blanco (c : Char) : Bool :=
  c = ' ' || c = '\t' || c = '\n' || c = '\r' || c = '\x0b' || c = '\x0c'

/-- Python `str.strip()`, modelled directly over the character list so
that it evaluates inside the kernel. -/
def recorta (s : String) : String :=
  String.mk (((s.data.dropWhile es_blanco).reverse.dropWhile es_blanco).reverse)

/-- Python `x.strip() if x else None` applied to a nullable text field
before insertion. -/
def limpia_opcional (x : Option String) : Option String :=
  match x with
  | none => none
  | some t => if t = "" then none else some (recorta t)

/-- The movement row the INSERT of utils.py lines 1507-1535 builds:
folio from `_generar_folio`, request date defaulted to today, receiver
defaulted to the safekeeping user, vehicle data denormalized, no
delivery or return yet. `_parse_date` is modelled on well-formed
inputs only (the route handler in `app.py` has already validated the
date string), so it is `Fecha.iso`. -/
def fila_nueva (db : DB) (hoy : Fecha) (s : SolicitudValidada) : Movimiento :=
  let fechaSol := (s.fecha_solicitud.map Fecha.iso).getD hoy.iso
  let receptor := if recorta s.receptor_nombre = "" then s.resguardante_nombre
                  else recorta s.receptor_nombre
  let ente := if s.ente_clave = "" then s.destinos.headD "" else s.ente_clave
  { id := proximo_id db, folio_acta := generar_folio_acta db hoy,
    usuario_id := s.usuario_id,
    ente_clave := ente, fecha_solicitud := fechaSol,
    fecha_entrega := none, fecha_devolucion := none,
    cantidad := s.cantidad, receptor_nombre := recorta receptor,
    firma_recepcion := limpia_opcional s.firma_recepcion,
    devuelto := false,
    observaciones := limpia_opcional s.observaciones,
    resguardante_nombre := s.resguardante_nombre,
    resguardante_id := some s.resguardante_id,
    placa_unidad := s.vehiculo_placa, marca := s.vehiculo_marca,
    modelo := s.vehiculo_modelo,
    responsable_vehiculo := s.responsable_nombre,
    vehiculo_id := some s.vehiculo_id,
    responsable_id := s.responsable_id_db,
    no_pasajeros := s.no_pasajeros_final,
    ruta_destino := String.intercalate " -> " s.destinos,
    motivo_salida := recorta s.motivo_salida }

/-- The persistence tail of `crear_movimiento` (utils.py lines
1502-1554): allocate the folio, insert the movement row built by
`fila_nueva`, its passenger and destination associations, and append
the SOLICITADO ledger event. Returns the `(folio, movimiento_id)`
success payload. The caller guarantees `destinos` is non-empty. -/
def insertar_movimiento (db : DB) (hoy : Fecha) (s : SolicitudValidada) :
    (String × Nat) × DB :=
  let mid := proximo_id db
  let db2 := { db with
    movimientos := db.movimientos ++ [fila_nueva db hoy s],
    movimientos_auditores :=
      db.movimientos_auditores ++ s.pasajeros_ids.map (fun p => (mid, p)),
    movimientos_destinos :=
      db.movimientos_destinos ++ s.destinos.enum.map (fun par => (mid, par.2, par.1 + 1)) }
  ((generar_folio_acta db hoy, mid),
    registrar_evento db2 mid s.usuario_id "SOLICITADO" hoy.iso)

/-- The reason enumeration hard-coded in `crear_movimiento`
(utils.py lines 1413-1419); it does not contain "Acta de Cierre". -/
def motivos_validos_crear : List String :=
  ["Notificación de Oficio", "Revisión de Auditoría", "Entrega de Recepción",
   "Compulsas", "Inspección Física"]

/-- The reason enumeration hard-coded in the `solicitar` route handler
(app.py lines 608-615); it does contain "Acta de Cierre". -/
def motivos_validos_app : List String :=
  ["Notificación de Oficio", "Revisión de Auditoría", "Entrega de Recepción",
   "Acta de Cierre", "Compulsas", "Inspección Física"]

/-- The occupancy query of `crear_movimiento` (utils.py lines
1445-1452): `SELECT 1 FROM movimientos WHERE vehiculo_id=? AND
fecha_entrega IS NOT NULL AND devuelto=0 LIMIT 1`. -/
def unidad_en_uso (db : DB) (v : Nat) : Bool :=
  db.movimientos.any
    (fun m => m.vehiculo_id == some v && m.fecha_entrega.isSome && !m.devuelto)

/-- `_obtener_responsable` (utils.py lines 1358-1379): resolve the
responsible party as an active auditor (name, NULL) when the tag is
"auditor", otherwise as an active user (name, id). -/
def obtener_responsable (db : DB) (tipo : String) (rid : Option Nat) :
    Option (String × Option Nat) :=
  match rid with
  | none => none
  | some r =>
    if tipo == "auditor" then
      match db.auditores.find? (fun a => a.id == r && a.activo) with
      | none => none
      | some a => some (a.nombre, none)
    else
      match db.usuarios.find? (fun u => u.id == r && u.activo) with
      | none => none
      | some u => some (u.nombre, some u.id)

/-- Outcome of a call to `crear_movimiento`: a success payload, a
structured failure message, or an uncaught Python exception. -/
inductive ResultadoCrear where
  | exito (folioActa : String) (movimiento_id : Nat)
  | fallo (mensaje : String)
  | excepcion (detalle : String)
deriving DecidableEq

/-- `crear_movimiento` (utils.py lines 1381-1554), translated
faithfully including its control-flow defect: the local
`no_pasajeros_int` is read at lines 1466-1467 but, unlike in
`solicitar_prestamo` (line 1145), never initialized in this function,
so every call that survives the responsible-party lookup raises
`UnboundLocalError` when it reaches the passenger normalization block.
The required-field loop (lines 1399-1412) checks, in order: vehiculo
(an `int`, never `None` here), responsable, pasajeros (an `int`), ruta,
motivo, then nombres_pasajeros when the passenger count is positive.
The code from line 1469 on (duplicate/active passenger checks,
destination validation, folio allocation and the INSERTs) is
unreachable; its persistence tail is modelled by
`insertar_movimiento`. -/
def crear_movimiento (db : DB) (hoy : Fecha) (usuario_id : Nat)
    (ente_clave : String) (cantidad : Int) (receptor_nombre : String)
    (firma_recepcion : Option String) (observaciones : Option String)
    (resguardante_id : Option Nat) (vehiculo_id : Nat)
    (responsable_usuario_id : Option Nat) (responsable_tipo : String)
    (no_pasajeros : Int) (pasajeros_ids : List Nat)
    (ruta_destinos : List String) (motivo_salida : String)
    (fecha_solicitud : Option Fecha) : ResultadoCrear × DB :=
  if responsable_usuario_id.isNone then (.fallo "Falta el dato de responsable.", db)
  else if ruta_destinos.isEmpty then (.fallo "Falta el dato de ruta.", db)
  else if recorta motivo_salida = "" then (.fallo "Falta el dato de motivo.", db)
  else if 0 < no_pasajeros && pasajeros_ids.isEmpty then
    (.fallo "Falta el dato de nombres_pasajeros.", db)
  else if !(motivos_validos_crear.contains motivo_salida) then
    (.fallo "Motivo de salida no valido.", db)
  else
    match db.usuarios.find? (fun u => u.id == usuario_id && u.activo) with
    | none => (.fallo "Usuario no encontrado para resguardo.", db)
    | some _ =>
      match db.vehiculos.find? (fun v => v.id == vehiculo_id && v.activo) with
      | none => (.fallo "Vehiculo no encontrado.", db)
      | some _ =>
        if unidad_en_uso db vehiculo_id then (.fallo "La unidad ya esta en uso.", db)
        else
          match obtener_responsable db responsable_tipo responsable_usuario_id with
          | none => (.fallo "Responsable no encontrado.", db)
          | some _ =>
            (.excepcion "UnboundLocalError: no_pasajeros_int", db)

/-- Loop body of `solicitar_prestamo` lines 1177-1182: starting the day
after today, collect calendar days whose weekday is below 5 until four
are gathered. Days are counted from a fixed Monday, so `d % 7` is
Python's `date.weekday()`. The fuel bound 14 covers the at most 6
calendar days the source loop can skip before finding 4 weekdays. -/
def siguientes_habiles_aux : Nat → Nat → List Nat → List Nat
  | 0, _, acc => acc
  | fuel + 1, cursor, acc =>
    if acc.length < 4 then
      siguientes_habiles_aux fuel (cursor + 1)
        (if cursor % 7 < 5 then acc ++ [cursor] else acc)
    else acc

/-- The set `siguientes` of `solicitar_prestamo`: the next four
business days strictly after today. -/
def siguientes_habiles (hoy : Nat) : List Nat :=
  siguientes_habiles_aux 14 (hoy + 1) []

/-- The date-window validation of `solicitar_prestamo` (utils.py lines
1163-1187) on already-parsed dates: at least one date, at most one
date, and every date must be one of the next four business days.
Returns the error message produced, or `none` when the window check
passes. -/
def validar_fechas_prestamo (hoy : Nat) (fechas : List Nat) : Option String :=
  if fechas.isEmpty then some "Falta seleccionar al menos una fecha."
  else if 1 < fechas.length then some "Solo se permite solicitar un dia por prestamo."
  else if fechas.any (fun f => !((siguientes_habiles hoy).contains f)) then
    some "Las fechas deben estar dentro de los siguientes 4 dias habiles."
  else none

/-- Inner loop of `_limites_semana_laboral` (app.py lines 206-211):
extend `fin` one day at a time, counting only weekdays, until five
business days (including the start day) are covered. -/
def fin_semana_aux : Nat → Nat → Nat → Nat
  | 0, fin, _ => fin
  | fuel + 1, fin, dias =>
    if dias < 5 then
      fin_semana_aux fuel (fin + 1) (if (fin + 1) % 7 < 5 then dias + 1 else dias)
    else fin

/-- `_limites_semana_laboral` (app.py lines 199-212) with the default
`total = 5`: the window starts today (or the following Monday when
today is a weekend day) and ends when five business days are counted. -/
def limites_semana_laboral (hoy : Nat) : Nat × Nat :=
  let ini := if 5 ≤ hoy % 7 then hoy + (7 - hoy % 7) % 7 else hoy
  (ini, fin_semana_aux 14 ini 1)

/-- `_fecha_laboral_valida` (app.py lines 226-234) on an
already-parsed date: a weekday lying inside the current business-day
window. This is the movement-request date check. -/
def fecha_laboral_valida (hoy fecha : Nat) : Bool :=
  if 5 ≤ fecha % 7 then false
  else
    (limites_semana_laboral hoy).1 ≤ fecha && fecha ≤ (limites_semana_laboral hoy).2

/-- `listar_movimientos_entregados` (utils.py lines 1684-1738): the
movements joined with the ledger on an ENTREGADO event whose acting
user and event date match the arguments (the row also inner-joins
`usuarios` on the requester). Row multiplicity of the SQL join and the
ORDER BY clause are abstracted away: the model returns each qualifying
movement once, in table order. -/
def listar_movimientos_entregados (db : DB) (uid : Nat) (fechaIso : String) :
    List Movimiento :=
  db.movimientos.filter (fun m =>
    db.usuarios.any (fun u => u.id == m.usuario_id) &&
    db.eventos.any (fun e =>
      e.movimiento_id == m.id && e.evento == "ENTREGADO" &&
      e.usuario_id == uid && e.fecha == fechaIso))

/-- A small concrete catalog: one active user, one active vehicle, one
active auditor, one active organizational entity, no movements yet. -/
def db_demo : DB :=
  { usuarios := [⟨1, "Ana Torres", true⟩],
    vehiculos := [⟨7, "XWZ-1234", "NISSAN", "VERSA", true⟩],
    auditores := [⟨3, "Luis Vega", true⟩],
    entes := [⟨"SFP", "SECRETARÍA DE LA FUNCIÓN PÚBLICA", true⟩],
    usuarios_vehiculos := [(1, 7)],
    movimientos := [], movimientos_auditores := [],
    movimientos_destinos := [], eventos := [] }

/-- C1: a movement request that passes the required-field, motivo,
user, vehicle, occupancy and responsible-party checks does not get a
structured result: `crear_movimiento` raises `UnboundLocalError`
(reads the never-initialized local `no_pasajeros_int`, utils.py lines
1466-1467) instead of returning, contradicting the specified
no-crash/result-always contract. -/
theorem c1_crear_movimiento_excepcion
    (db : DB) (hoy : Fecha) (usuario_id : Nat) (ente_clave : String)
    (cantidad : Int) (receptor_nombre : String) (firma : Option String)
    (obs : Option String) (resg : Option Nat) (vehiculo_id : Nat)
    (rid : Option Nat) (rtipo : String) (np : Int) (pids : List Nat)
    (ruta : List String) (motivo : String) (fs : Option Fecha)
    (h1 : rid.isNone = false)
    (h2 : ruta.isEmpty = false)
    (h3 : recorta motivo ≠ "")
    (h4 : (0 < np && pids.isEmpty) = false)
    (h5 : motivo ∈ motivos_validos_crear)
    (h6 : (db.usuarios.find? (fun u => u.id == usuario_id && u.activo)).isSome)
    (h7 : (db.vehiculos.find? (fun v => v.id == vehiculo_id && v.activo)).isSome)
    (h8 : unidad_en_uso db vehiculo_id = false)
    (h9 : (obtener_responsable db rtipo rid).isSome) :
    crear_movimiento db hoy usuario_id ente_clave cantidad receptor_nombre
      firma obs resg vehiculo_id rid rtipo np pids ruta motivo fs
      = (.excepcion "UnboundLocalError: no_pasajeros_int", db) := by
  obtain ⟨u, hu⟩ := Option.isSome_iff_exists.mp h6
  obtain ⟨v, hv⟩ := Option.isSome_iff_exists.mp h7
  obtain ⟨r, hr⟩ := Option.isSome_iff_exists.mp h9
  simp [crear_movimiento, h1, h2, h3, h4, h5, h8, hu, hv, hr]

/-- Witness for C1: the fully valid request of the spec round-trip
scenario (vehicle 7, auditor 3 responsible, no passengers, destination
SFP, reason Compulsas) crashes. -/
theorem c1_crear_movimiento_excepcion_witness :
    crear_movimiento db_demo ⟨2026, 10, 12⟩ 1 "SFP" 1 "" none none none 7
      (some 3) "auditor" 0 [] ["SFP"] "Compulsas" none
      = (.excepcion "UnboundLocalError: no_pasajeros_int", db_demo) :=
  c1_crear_movimiento_excepcion db_demo ⟨2026, 10, 12⟩ 1 "SFP" 1 "" none none
    none 7 (some 3) "auditor" 0 [] ["SFP"] "Compulsas" none
    (by decide) (by decide) (by decide) (by decide) (by decide)
    (by decide) (by decide) (by decide) (by decide)

/-- C5: a request whose destination list contains the unknown code
"ZZZZ" (with every other field valid) never reaches the destination
validation of utils.py lines 1488-1501: `crear_movimiento` raises
`UnboundLocalError` at the passenger normalization block first, so the
caller gets no destinations-not-found failure result. No rows are
persisted (the store is returned unchanged). -/
theorem c5_destinos_invalidos_excepcion :
    crear_movimiento db_demo ⟨2026, 10, 12⟩ 1 "" 1 "" none none none 7
      (some 3) "auditor" 0 [] ["SFP", "ZZZZ"] "Compulsas" none
      = (.excepcion "UnboundLocalError: no_pasajeros_int", db_demo) := by
  decide

/-- C6 counterexample: "Acta de Cierre" belongs to the reason
enumeration of the `solicitar` route handler, yet a movement request
carrying it (all other fields valid) is rejected by `crear_movimiento`
with "Motivo de salida no valido.", because the enumeration hard-coded
in utils.py lines 1413-1419 lacks that entry. -/
theorem c6_acta_de_cierre_rechazado :
    "Acta de Cierre" ∈ motivos_validos_app ∧
    "Acta de Cierre" ∉ motivos_validos_crear ∧
    crear_movimiento db_demo ⟨2026, 10, 12⟩ 1 "" 1 "" none none none 7
      (some 3) "auditor" 0 [] ["SFP"] "Acta de Cierre" none
      = (.fallo "Motivo de salida no valido.", db_demo) := by
  refine ⟨by decide, by decide, by decide⟩

/-- C6 amended: once the required-field checks pass, `crear_movimiento`
returns the reason-invalid failure exactly when the stated reason is
outside its own five-element enumeration (exact string match); the
route handler's six-element enumeration is a strict superset, so the
composed movement-request path accepts exactly the five reasons of
`motivos_validos_crear`, and "Acta de Cierre" passes only the route
handler. -/
theorem c6_motivo_exacto_cinco
    (db : DB) (hoy : Fecha) (usuario_id : Nat) (ente_clave : String)
    (cantidad : Int) (receptor_nombre : String) (firma : Option String)
    (obs : Option String) (resg : Option Nat) (vehiculo_id : Nat)
    (rid : Option Nat) (rtipo : String) (np : Int) (pids : List Nat)
    (ruta : List String) (motivo : String) (fs : Option Fecha)
    (h1 : rid.isNone = false)
    (h2 : ruta.isEmpty = false)
    (h3 : recorta motivo ≠ "")
    (h4 : (0 < np && pids.isEmpty) = false) :
    ((crear_movimiento db hoy usuario_id ente_clave cantidad receptor_nombre
        firma obs resg vehiculo_id rid rtipo np pids ruta motivo fs).1
      = .fallo "Motivo de salida no valido." ↔ motivo ∉ motivos_validos_crear)
    ∧ (∀ m ∈ motivos_validos_crear, m ∈ motivos_validos_app) := by
  constructor
  · by_cases hm : motivo ∈ motivos_validos_crear
    · simp only [hm, not_true_eq_false, iff_false]
      intro hcontra
      simp only [crear_movimiento, h1, h2, h3, h4] at hcontra
      cases hfu : List.find? (fun u => u.id == usuario_id && u.activo) db.usuarios with
      | none => rw [hfu] at hcontra; simp [hm] at hcontra
      | some u =>
        rw [hfu] at hcontra
        cases hfv : List.find? (fun v => v.id == vehiculo_id && v.activo) db.vehiculos with
        | none => rw [hfv] at hcontra; simp [hm] at hcontra
        | some v =>
          rw [hfv] at hcontra
          cases huso : unidad_en_uso db vehiculo_id with
          | true => simp [huso, hm] at hcontra
          | false =>
            simp only [huso, Bool.false_eq_true, if_false, if_neg] at hcontra
            cases hresp : obtener_responsable db rtipo rid with
            | none => rw [hresp] at hcontra; simp [hm] at hcontra
            | some r => rw [hresp] at hcontra; simp [hm] at hcontra
    · simp only [hm, not_false_eq_true, iff_true]
      simp [crear_movimiento, h1, h2, h3, h4, hm]
  · intro m hm
    fin_cases hm <;> decide

/-- Witness for C6 amended: at the concrete request of the
counterexample scenario the characterization is non-vacuous. -/
theorem c6_motivo_exacto_cinco_witness :
    ((crear_movimiento db_demo ⟨2026, 10, 12⟩ 1 "" 1 "" none none none 7
        (some 3) "auditor" 0 [] ["SFP"] "Acta de Cierre" none).1
      = .fallo "Motivo de salida no valido." ↔
        "Acta de Cierre" ∉ motivos_validos_crear)
    ∧ (∀ m ∈ motivos_validos_crear, m ∈ motivos_validos_app) :=
  c6_motivo_exacto_cinco db_demo ⟨2026, 10, 12⟩ 1 "" 1 "" none none none 7
    (some 3) "auditor" 0 [] ["SFP"] "Acta de Cierre" none
    (by decide) (by decide) (by decide) (by decide)

/-- The open state of a movement in the sense of the specification:
delivered, not yet returned, and never rejected. Matches the occupancy
queries of utils.py (lines 1101-1113 and 1445-1452, the latter without
the rejection clause because a delivered movement can no longer be
rejected). -/
def movimiento_abierto (db : DB) (m : Movimiento) : Bool :=
  m.fecha_entrega.isSome && !m.devuelto && !(tiene_rechazado db m.id)

/-- A validated request for vehicle 7 whose trip date is left to
default to the current date. -/
def solicitud_hoy : SolicitudValidada :=
  { usuario_id := 1, ente_clave := "SFP", cantidad := 1,
    receptor_nombre := "", firma_recepcion := none, observaciones := none,
    resguardante_nombre := "Ana Torres", resguardante_id := 1,
    vehiculo_id := 7, vehiculo_placa := "XWZ-1234",
    vehiculo_marca := "NISSAN", vehiculo_modelo := "VERSA",
    responsable_nombre := "Luis Vega", responsable_id_db := none,
    no_pasajeros_final := 0, pasajeros_ids := [], destinos := ["SFP"],
    motivo_salida := "Compulsas", fecha_solicitud := none }

/-- Vehicle 7 with two requested movements (ids 1 and 2), the first of
which has been delivered and is open. -/
def db_dos_solicitudes : DB :=
  (insertar_movimiento
    (insertar_movimiento db_demo ⟨2026, 10, 12⟩ solicitud_hoy).2
    ⟨2026, 10, 12⟩ solicitud_hoy).2

def db_una_abierta : DB :=
  (marcar_entregado db_dos_solicitudes 1 1 "2026-10-12").db

/-- C2 counterexample: movement 1 on vehicle 7 is open (delivered, not
returned, not rejected), movement 2 references the same vehicle, and
`marcar_entregado` on movement 2 succeeds anyway — afterwards vehicle
7 has two simultaneously open movements. -/
theorem c2_segunda_entrega_exitosa :
    (db_una_abierta.movimientos.any (fun m =>
      m.id == 1 && m.vehiculo_id == some 7 && movimiento_abierto db_una_abierta m)) = true
    ∧ (db_una_abierta.movimientos.any (fun m =>
      m.id == 2 && m.vehiculo_id == some 7 && m.fecha_entrega.isNone)) = true
    ∧ (marcar_entregado db_una_abierta 2 1 "2026-10-13").ok = true
    ∧ (((marcar_entregado db_una_abierta 2 1 "2026-10-13").db).movimientos.filter
        (fun m => m.vehiculo_id == some 7 &&
          movimiento_abierto (marcar_entregado db_una_abierta 2 1 "2026-10-13").db m)).length = 2 := by
  refine ⟨by decide, by decide, by decide, by decide⟩

/-- C2 amended: vehicle exclusivity is enforced only at request time.
While a vehicle has a delivered, unreturned movement, `crear_movimiento`
rejects any new request for it with "La unidad ya esta en uso."; but
`marcar_entregado` inspects only the target movement's own state
(rejection event and delivery date), so delivering a second, already
requested movement of the same vehicle succeeds even while the first
is open. -/
theorem c2_exclusividad_solo_en_solicitud
    (db : DB) (hoy : Fecha) (usuario_id : Nat) (ente_clave : String)
    (cantidad : Int) (receptor_nombre : String) (firma : Option String)
    (obs : Option String) (resg : Option Nat) (vehiculo_id : Nat)
    (rid : Option Nat) (rtipo : String) (np : Int) (pids : List Nat)
    (ruta : List String) (motivo : String) (fs : Option Fecha)
    (mid uid : Nat) (dia : String) (fila : Movimiento)
    (h1 : rid.isNone = false)
    (h2 : ruta.isEmpty = false)
    (h3 : recorta motivo ≠ "")
    (h4 : (0 < np && pids.isEmpty) = false)
    (h5 : motivo ∈ motivos_validos_crear)
    (h6 : (db.usuarios.find? (fun u => u.id == usuario_id && u.activo)).isSome)
    (h7 : (db.vehiculos.find? (fun v => v.id == vehiculo_id && v.activo)).isSome)
    (h8 : unidad_en_uso db vehiculo_id = true)
    (h9 : buscar_movimiento db mid = some fila)
    (h10 : tiene_rechazado db mid = false)
    (h11 : fila.fecha_entrega = none) :
    crear_movimiento db hoy usuario_id ente_clave cantidad receptor_nombre
      firma obs resg vehiculo_id rid rtipo np pids ruta motivo fs
      = (.fallo "La unidad ya esta en uso.", db)
    ∧ (marcar_entregado db mid uid dia).ok = true := by
  constructor
  · obtain ⟨u, hu⟩ := Option.isSome_iff_exists.mp h6
    obtain ⟨v, hv⟩ := Option.isSome_iff_exists.mp h7
    simp [crear_movimiento, h1, h2, h3, h4, h5, h8, hu, hv]
  · simp [marcar_entregado, h9, h10, h11]

/-- Witness for C2 amended: in the concrete two-movement state vehicle
7 is in use, a new request for it fails with the in-use conflict, and
delivering the still pending movement 2 succeeds. -/
theorem c2_exclusividad_solo_en_solicitud_witness :
    crear_movimiento db_una_abierta ⟨2026, 10, 13⟩ 1 "" 1 "" none none none 7
      (some 3) "auditor" 0 [] ["SFP"] "Compulsas" none
      = (.fallo "La unidad ya esta en uso.", db_una_abierta)
    ∧ (marcar_entregado db_una_abierta 2 1 "2026-10-13").ok = true :=
  c2_exclusividad_solo_en_solicitud db_una_abierta ⟨2026, 10, 13⟩ 1 "" 1 ""
    none none none 7 (some 3) "auditor" 0 [] ["SFP"] "Compulsas" none
    2 1 "2026-10-13" ((buscar_movimiento db_una_abierta 2).getD default)
    (by decide) (by decide) (by decide) (by decide) (by decide) (by decide)
    (by decide) (by decide) (by decide) (by decide) (by decide)

/-- The request of `solicitud_hoy` but carrying tomorrow's trip date in
its `fecha_solicitud` form field (a Tuesday, accepted by the
movement-path date window). -/
def solicitud_manana : SolicitudValidada :=
  { solicitud_hoy with fecha_solicitud := some ⟨2026, 10, 13⟩ }

/-- C4 counterexample: two successful movement requests performed on
2026-10-12 both carrying trip date 2026-10-13 receive the same folio
`ACTA-20261012-0001`: `_generar_folio` counts stored rows whose
`fecha_solicitud` column equals the current date, but the inserted row
stores the caller's trip date, so neither request bumps the counter of
the current date. The resulting folios are neither distinct nor
strictly increasing. -/
theorem c4_folios_duplicados :
    (insertar_movimiento db_demo ⟨2026, 10, 12⟩ solicitud_manana).1.1
      = "ACTA-20261012-0001"
    ∧ (insertar_movimiento
        (insertar_movimiento db_demo ⟨2026, 10, 12⟩ solicitud_manana).2
        ⟨2026, 10, 12⟩ solicitud_manana).1.1
      = "ACTA-20261012-0001" := by
  refine ⟨by decide, by decide⟩

/-- Folding the persistence tail over a list of validated requests on a
single current date, recording the sequence number each folio gets. -/
def ejecutar_solicitudes (db : DB) (hoy : Fecha) :
    List SolicitudValidada → List Nat × DB
  | [] => ([], db)
  | s :: rest =>
    let paso := insertar_movimiento db hoy s
    let resto := ejecutar_solicitudes paso.2 hoy rest
    ((cuenta_solicitudes_hoy db hoy.iso + 1) :: resto.1, resto.2)

/-- Inserting a movement whose stored trip date is the current date
increments the folio counter of the current date by one. -/
theorem cuenta_solicitudes_insertar (db : DB) (hoy : Fecha)
    (s : SolicitudValidada)
    (hs : s.fecha_solicitud = some hoy ∨ s.fecha_solicitud = none) :
    cuenta_solicitudes_hoy (insertar_movimiento db hoy s).2 hoy.iso
      = cuenta_solicitudes_hoy db hoy.iso + 1 := by
  rcases hs with hs | hs <;>
    simp [insertar_movimiento, fila_nueva, registrar_evento,
      cuenta_solicitudes_hoy, List.filter_append, hs]

/-- Sequence numbers allocated to requests whose stored trip date is
the current date are consecutive starting after the current count. -/
theorem ejecutar_solicitudes_numeros (hoy : Fecha) (l : List SolicitudValidada)
    (db : DB)
    (hl : ∀ s ∈ l, s.fecha_solicitud = some hoy ∨ s.fecha_solicitud = none) :
    (ejecutar_solicitudes db hoy l).1
      = List.range' (cuenta_solicitudes_hoy db hoy.iso + 1) l.length := by
  induction l generalizing db with
  | nil => simp [ejecutar_solicitudes]
  | cons s rest ih =>
    have hs := hl s (by simp)
    have hrest : ∀ t ∈ rest, t.fecha_solicitud = some hoy ∨ t.fecha_solicitud = none :=
      fun t ht => hl t (by simp [ht])
    simp only [ejecutar_solicitudes, List.length_cons, List.range'_succ]
    rw [ih _ hrest, cuenta_solicitudes_insertar db hoy s hs]

/-- C4 amended: every allocated folio has the format
`ACTA-<compact current date>-<pad4 NNNN>` with `NNNN` one more than
the number of stored movements whose `fecha_solicitud` column (the
trip date the caller passes) equals the current date; and for any
sequence of successful requests on the same date whose trip dates
equal (or default to) the current date, the sequence numbers are
consecutive, hence strictly increasing. -/
theorem c4_folio_secuencial_por_fecha (db : DB) (hoy : Fecha)
    (l : List SolicitudValidada)
    (hl : ∀ s ∈ l, s.fecha_solicitud = some hoy ∨ s.fecha_solicitud = none) :
    (∀ db2 s2, (insertar_movimiento db2 hoy s2).1.1
      = "ACTA-" ++ hoy.compacta ++ "-" ++ pad4 (cuenta_solicitudes_hoy db2 hoy.iso + 1))
    ∧ (ejecutar_solicitudes db hoy l).1
      = List.range' (cuenta_solicitudes_hoy db hoy.iso + 1) l.length
    ∧ List.Pairwise (· < ·) (ejecutar_solicitudes db hoy l).1 := by
  have h2 := ejecutar_solicitudes_numeros hoy l db hl
  refine ⟨fun db2 s2 => rfl, h2, ?_⟩
  rw [h2]
  exact List.pairwise_lt_range' _ _

/-- Witness for C4 amended: two same-day requests whose trip dates
default to the current date receive sequence numbers 1 and 2. -/
theorem c4_folio_secuencial_por_fecha_witness :
    (ejecutar_solicitudes db_demo ⟨2026, 10, 12⟩ [solicitud_hoy, solicitud_hoy]).1 = [1, 2]
    ∧ List.Pairwise (· < ·)
        (ejecutar_solicitudes db_demo ⟨2026, 10, 12⟩ [solicitud_hoy, solicitud_hoy]).1 := by
  have h := c4_folio_secuencial_por_fecha db_demo ⟨2026, 10, 12⟩
    [solicitud_hoy, solicitud_hoy] (by decide)
  refine ⟨?_, h.2.2⟩
  rw [h.2.1]
  decide

/-- C7: `marcar_rechazado` fails exactly on an unknown, delivered,
returned or already rejected movement; on success the store changes
only by the appended RECHAZADO ledger row (every movement row keeps
every column); and a second call on the same movement fails with the
already-rejected message and changes nothing. -/
theorem c7_rechazar_caracterizacion (db : DB) (mid uid : Nat) (hoy : String) :
    ((marcar_rechazado db mid uid hoy).ok = false ↔
      buscar_movimiento db mid = none
      ∨ (∃ fila, buscar_movimiento db mid = some fila
          ∧ (fila.fecha_entrega.isSome = true ∨ fila.devuelto = true))
      ∨ tiene_rechazado db mid = true)
    ∧ ((marcar_rechazado db mid uid hoy).ok = false →
        (marcar_rechazado db mid uid hoy).db = db)
    ∧ ((marcar_rechazado db mid uid hoy).ok = true →
        (marcar_rechazado db mid uid hoy).db
          = { db with eventos := db.eventos ++ [⟨mid, uid, "RECHAZADO", hoy, ""⟩] })
    ∧ (∀ uid2 hoy2, (marcar_rechazado db mid uid hoy).ok = true →
        marcar_rechazado (marcar_rechazado db mid uid hoy).db mid uid2 hoy2
          = ⟨false, "El movimiento ya fue rechazado.",
              (marcar_rechazado db mid uid hoy).db⟩) := by
  cases hb : buscar_movimiento db mid with
  | none => simp [marcar_rechazado, hb]
  | some fila =>
    by_cases hent : fila.fecha_entrega.isSome = true ∨ fila.devuelto = true
    · have hcond : (fila.fecha_entrega.isSome || fila.devuelto) = true := by
        rcases hent with h | h <;> simp [h]
      refine ⟨?_, ?_, ?_, ?_⟩ <;> simp [marcar_rechazado, hb, hcond]
      exact Or.inl hent
    · push_neg at hent
      have hfe : fila.fecha_entrega.isSome = false := by
        simpa using hent.1
      have hdev : fila.devuelto = false := by
        simpa using hent.2
      have hcond : (fila.fecha_entrega.isSome || fila.devuelto) = false := by
        simp [hfe, hdev]
      by_cases hr : tiene_rechazado db mid = true
      · refine ⟨?_, ?_, ?_, ?_⟩ <;> simp [marcar_rechazado, hb, hcond, hr]
      · have hr' : tiene_rechazado db mid = false := by
          simpa using hr
        have hsegundo : ∀ uid2 hoy2,
            marcar_rechazado
              { db with eventos := db.eventos ++ [⟨mid, uid, "RECHAZADO", hoy, ""⟩] }
              mid uid2 hoy2
            = ⟨false, "El movimiento ya fue rechazado.",
                { db with eventos := db.eventos ++ [⟨mid, uid, "RECHAZADO", hoy, ""⟩] }⟩ := by
          intro uid2 hoy2
          have hb2 : buscar_movimiento
              { db with eventos := db.eventos ++ [⟨mid, uid, "RECHAZADO", hoy, ""⟩] } mid
              = some fila := hb
          have hr2 : tiene_rechazado
              { db with eventos := db.eventos ++ [⟨mid, uid, "RECHAZADO", hoy, ""⟩] } mid
              = true := by
            simp [tiene_rechazado, List.any_append]
          simp [marcar_rechazado, hb2, hcond, hr2]
        refine ⟨?_, ?_, ?_, ?_⟩
        · simp [marcar_rechazado, hb, hcond, hr', registrar_evento, hfe, hdev]
        · simp [marcar_rechazado, hb, hcond, hr', registrar_evento]
        · simp [marcar_rechazado, hb, hcond, hr', registrar_evento]
        · intro uid2 hoy2 _
          have hres : (marcar_rechazado db mid uid hoy).db
              = { db with eventos := db.eventos ++ [⟨mid, uid, "RECHAZADO", hoy, ""⟩] } := by
            simp [marcar_rechazado, hb, hcond, hr', registrar_evento]
          rw [hres]
          exact hsegundo uid2 hoy2

/-- Witness for C7: in the concrete catalog with one freshly requested
movement, rejecting succeeds and the second rejection fails with the
already-rejected message, leaving the store unchanged. -/
theorem c7_rechazar_caracterizacion_witness :
    ((marcar_rechazado (insertar_movimiento db_demo ⟨2026, 10, 12⟩ solicitud_hoy).2
        1 1 "2026-10-12").ok = false ↔
      buscar_movimiento (insertar_movimiento db_demo ⟨2026, 10, 12⟩ solicitud_hoy).2 1 = none
      ∨ (∃ fila, buscar_movimiento (insertar_movimiento db_demo ⟨2026, 10, 12⟩ solicitud_hoy).2 1 = some fila
          ∧ (fila.fecha_entrega.isSome = true ∨ fila.devuelto = true))
      ∨ tiene_rechazado (insertar_movimiento db_demo ⟨2026, 10, 12⟩ solicitud_hoy).2 1 = true) := by
  have h := c7_rechazar_caracterizacion
    (insertar_movimiento db_demo ⟨2026, 10, 12⟩ solicitud_hoy).2 1 1 "2026-10-12"
  exact h.1

/-- C8: `marcar_devuelto` fails exactly on an unknown, already
returned, or not yet delivered movement; on success it sets the return
date to today, sets the returned flag on the target row, and appends a
DEVUELTO ledger event, touching nothing else. -/
theorem c8_devolver_caracterizacion (db : DB) (mid uid : Nat) (hoy : String) :
    ((marcar_devuelto db mid uid hoy).ok = false ↔
      buscar_movimiento db mid = none
      ∨ (∃ fila, buscar_movimiento db mid = some fila
          ∧ (fila.devuelto = true ∨ fila.fecha_entrega = none)))
    ∧ ((marcar_devuelto db mid uid hoy).ok = false →
        (marcar_devuelto db mid uid hoy).db = db)
    ∧ ((marcar_devuelto db mid uid hoy).ok = true →
        (marcar_devuelto db mid uid hoy).db
          = { db with
              movimientos := db.movimientos.map (fun m =>
                if m.id == mid then
                  { m with fecha_devolucion := some hoy, devuelto := true } else m),
              eventos := db.eventos ++ [⟨mid, uid, "DEVUELTO", hoy, ""⟩] }) := by
  cases hb : buscar_movimiento db mid with
  | none => simp [marcar_devuelto, hb]
  | some fila =>
    by_cases hdev : fila.devuelto = true
    · refine ⟨?_, ?_, ?_⟩ <;> simp [marcar_devuelto, hb, hdev]
    · have hdev' : fila.devuelto = false := by simpa using hdev
      by_cases hfe : fila.fecha_entrega = none
      · have hnone : fila.fecha_entrega.isNone = true := by simp [hfe]
        refine ⟨?_, ?_, ?_⟩ <;> simp [marcar_devuelto, hb, hdev', hnone]
        exact hfe
      · have hsome : fila.fecha_entrega.isNone = false := by
          cases hx : fila.fecha_entrega with
          | none => exact absurd hx hfe
          | some v => simp [hx]
        refine ⟨?_, ?_, ?_⟩ <;>
          simp [marcar_devuelto, hb, hdev', hsome, registrar_evento, hfe]

/-- Witness for C8: in the delivered-movement state of the C2 scenario,
returning movement 1 succeeds and the characterization is
non-vacuous. -/
theorem c8_devolver_caracterizacion_witness :
    ((marcar_devuelto db_una_abierta 1 1 "2026-10-14").ok = false ↔
      buscar_movimiento db_una_abierta 1 = none
      ∨ (∃ fila, buscar_movimiento db_una_abierta 1 = some fila
          ∧ (fila.devuelto = true ∨ fila.fecha_entrega = none))) :=
  (c8_devolver_caracterizacion db_una_abierta 1 1 "2026-10-14").1

/-- C10: under the foreign-key invariant that every movement's
requester exists in `usuarios` (which the creation path guarantees by
resolving the user first), `listar_movimientos_entregados` returns
exactly the movements having an ENTREGADO ledger event whose acting
user is the given user and whose event date is the given date;
deliveries recorded by any other user are excluded. -/
theorem c10_entregados_por_usuario_y_fecha (db : DB) (uid : Nat)
    (fechaIso : String) (m : Movimiento)
    (hwf : ∀ mv ∈ db.movimientos, ∃ u ∈ db.usuarios, u.id = mv.usuario_id) :
    m ∈ listar_movimientos_entregados db uid fechaIso ↔
      m ∈ db.movimientos ∧ ∃ e ∈ db.eventos,
        e.movimiento_id = m.id ∧ e.evento = "ENTREGADO"
        ∧ e.usuario_id = uid ∧ e.fecha = fechaIso := by
  unfold listar_movimientos_entregados
  simp only [List.mem_filter, List.any_eq_true, Bool.and_eq_true, beq_iff_eq]
  constructor
  · rintro ⟨hm, -, e, hein, hcond⟩
    exact ⟨hm, e, hein, hcond.1.1.1, hcond.1.1.2, hcond.1.2, hcond.2⟩
  · rintro ⟨hm, e, hein, h1, h2, h3, h4⟩
    obtain ⟨u, hu, huid⟩ := hwf m hm
    exact ⟨hm, ⟨u, hu, huid⟩, e, hein, ⟨⟨h1, h2⟩, h3⟩, h4⟩

/-- Store in which movements 1 and 2 exist and movement 1 was marked
delivered by user 5 while movement 2 was marked delivered by user 6,
both on 2026-10-12. -/
def db_reporte : DB :=
  (marcar_entregado
    (marcar_entregado db_dos_solicitudes 1 5 "2026-10-12").db
    2 6 "2026-10-12").db

/-- Witness for C10: on the concrete store, the monitor report for user
5 on 2026-10-12 contains movement 1 (delivered by user 5) and excludes
movement 2 (delivered by user 6 on the same date). -/
theorem c10_entregados_por_usuario_y_fecha_witness :
    ((buscar_movimiento db_reporte 1).getD default
      ∈ listar_movimientos_entregados db_reporte 5 "2026-10-12")
    ∧ ((buscar_movimiento db_reporte 2).getD default
      ∉ listar_movimientos_entregados db_reporte 5 "2026-10-12") := by
  constructor
  · exact (c10_entregados_por_usuario_y_fecha db_reporte 5 "2026-10-12"
      ((buscar_movimiento db_reporte 1).getD default) (by decide)).mpr (by decide)
  · intro hmem
    have h := (c10_entregados_por_usuario_y_fecha db_reporte 5 "2026-10-12"
      ((buscar_movimiento db_reporte 2).getD default) (by decide)).mp hmem
    revert h
    decide

/-- Closed form of the loan-window computation, by the weekday of
today: the loop always selects exactly the four earliest weekdays
strictly after today. -/
theorem siguientes_habiles_eq (hoy : Nat) :
    siguientes_habiles hoy =
      if hoy % 7 = 0 then [hoy + 1, hoy + 2, hoy + 3, hoy + 4]
      else if hoy % 7 = 1 then [hoy + 1, hoy + 2, hoy + 3, hoy + 6]
      else if hoy % 7 = 2 then [hoy + 1, hoy + 2, hoy + 5, hoy + 6]
      else if hoy % 7 = 3 then [hoy + 1, hoy + 4, hoy + 5, hoy + 6]
      else if hoy % 7 = 4 then [hoy + 3, hoy + 4, hoy + 5, hoy + 6]
      else if hoy % 7 = 5 then [hoy + 2, hoy + 3, hoy + 4, hoy + 5]
      else [hoy + 1, hoy + 2, hoy + 3, hoy + 4] := by
  have h7 : hoy % 7 < 7 := Nat.mod_lt _ (by norm_num)
  by_cases h0 : hoy % 7 = 0
  · obtain ⟨q, rfl⟩ : ∃ q, hoy = 7 * q := ⟨hoy / 7, by omega⟩
    simp [siguientes_habiles, siguientes_habiles_aux, Nat.add_assoc, Nat.mul_add_mod]
  by_cases h1 : hoy % 7 = 1
  · obtain ⟨q, rfl⟩ : ∃ q, hoy = 7 * q + 1 := ⟨hoy / 7, by omega⟩
    simp [siguientes_habiles, siguientes_habiles_aux, Nat.add_assoc, Nat.mul_add_mod]
  by_cases h2 : hoy % 7 = 2
  · obtain ⟨q, rfl⟩ : ∃ q, hoy = 7 * q + 2 := ⟨hoy / 7, by omega⟩
    simp [siguientes_habiles, siguientes_habiles_aux, Nat.add_assoc, Nat.mul_add_mod]
  by_cases h3 : hoy % 7 = 3
  · obtain ⟨q, rfl⟩ : ∃ q, hoy = 7 * q + 3 := ⟨hoy / 7, by omega⟩
    simp [siguientes_habiles, siguientes_habiles_aux, Nat.add_assoc, Nat.mul_add_mod]
  by_cases h4 : hoy % 7 = 4
  · obtain ⟨q, rfl⟩ : ∃ q, hoy = 7 * q + 4 := ⟨hoy / 7, by omega⟩
    simp [siguientes_habiles, siguientes_habiles_aux, Nat.add_assoc, Nat.mul_add_mod]
  by_cases h5 : hoy % 7 = 5
  · obtain ⟨q, rfl⟩ : ∃ q, hoy = 7 * q + 5 := ⟨hoy / 7, by omega⟩
    simp [siguientes_habiles, siguientes_habiles_aux, Nat.add_assoc, Nat.mul_add_mod]
  · obtain ⟨q, rfl⟩ : ∃ q, hoy = 7 * q + 6 := ⟨hoy / 7, by omega⟩
    simp [siguientes_habiles, siguientes_habiles_aux, Nat.add_assoc, Nat.mul_add_mod]

/-- The business-day counting loop never moves the end of the window
backwards. -/
theorem fin_semana_aux_ge : ∀ (fuel fin dias : Nat), fin ≤ fin_semana_aux fuel fin dias := by
  intro fuel
  induction fuel with
  | zero => intro fin dias; exact le_refl _
  | succ f ih =>
    intro fin dias
    unfold fin_semana_aux
    split
    · exact le_trans (Nat.le_succ fin) (ih (fin + 1) _)
    · exact le_refl _

/-- C9: the loan path accepts a single requested date exactly when it
is one of the four business days strictly after the current date (the
window contains four days, all weekdays strictly after today, and
everything it omits among such weekdays lies beyond everything it
contains, so it is exactly the earliest four); in particular the
current date itself is always rejected with the four-business-days
message — while the movement path's `_fecha_laboral_valida` accepts
the current date whenever it is a weekday. -/
theorem c9_ventana_prestamo_vs_movimiento (hoy d : Nat) :
    (validar_fechas_prestamo hoy [d] = none ↔ d ∈ siguientes_habiles hoy)
    ∧ (siguientes_habiles hoy).length = 4
    ∧ (∀ e ∈ siguientes_habiles hoy, hoy < e ∧ e % 7 < 5)
    ∧ (∀ e, hoy < e → e % 7 < 5 → e ∉ siguientes_habiles hoy →
        ∀ f ∈ siguientes_habiles hoy, f < e)
    ∧ validar_fechas_prestamo hoy [hoy]
        = some "Las fechas deben estar dentro de los siguientes 4 dias habiles."
    ∧ (hoy % 7 < 5 → fecha_laboral_valida hoy hoy = true) := by
  have h7 : hoy % 7 < 7 := Nat.mod_lt _ (by norm_num)
  have hC : ∀ e ∈ siguientes_habiles hoy, hoy < e ∧ e % 7 < 5 := by
    intro e he
    rw [siguientes_habiles_eq] at he
    split_ifs at he <;> simp at he <;> omega
  have hA : ∀ x, (validar_fechas_prestamo hoy [x] = none ↔ x ∈ siguientes_habiles hoy) := by
    intro x
    by_cases hc : x ∈ siguientes_habiles hoy <;>
      simp [validar_fechas_prestamo, hc]
  refine ⟨hA d, ?_, hC, ?_, ?_, ?_⟩
  · rw [siguientes_habiles_eq]
    split_ifs <;> rfl
  · intro e he1 he2 hen f hf
    rw [siguientes_habiles_eq] at hen hf
    split_ifs at hen hf <;> simp at hen hf <;> omega
  · have hnotmem : hoy ∉ siguientes_habiles hoy := by
      intro hmem
      exact absurd (hC hoy hmem).1 (lt_irrefl hoy)
    simp [validar_fechas_prestamo, hnotmem]
  · intro hsem
    have hno : ¬ 5 ≤ hoy % 7 := by omega
    simp [fecha_laboral_valida, limites_semana_laboral, hno, fin_semana_aux_ge]

/-- Witness for C9: on a Wednesday (day 2 of the week grid), a loan
request for the same day is rejected by the loan window while the
movement path accepts the same date. -/
theorem c9_ventana_prestamo_vs_movimiento_witness :
    validar_fechas_prestamo 2 [2]
      = some "Las fechas deben estar dentro de los siguientes 4 dias habiles."
    ∧ fecha_laboral_valida 2 2 = true := by
  have h := c9_ventana_prestamo_vs_movimiento 2 2
  exact ⟨h.2.2.2.2.1, h.2.2.2.2.2 (by decide)⟩

/-- Ledger trace of one movement: the `evento` labels of its rows in
`movimientos_eventos`, in insertion order. -/
def eventos_de (db : DB) (mid : Nat) : List String :=
  (db.eventos.filter (fun e => e.movimiento_id == mid)).map (fun e => e.evento)

/-- Modelled from the spec: a ledger trace is valid when it is a
prefix of SOLICITADO, then ENTREGADO or RECHAZADO, then optionally
DEVUELTO (and DEVUELTO only after ENTREGADO). -/
def SecuenciaValida (s : List String) : Prop :=
  s = [] ∨ s = ["SOLICITADO"] ∨ s = ["SOLICITADO", "ENTREGADO"] ∨
  s = ["SOLICITADO", "RECHAZADO"] ∨ s = ["SOLICITADO", "ENTREGADO", "DEVUELTO"]

/-- Correspondence between a movement row's columns and a given ledger
trace: the four states the engine can produce. -/
def SanoCon (evs : List String) (m : Movimiento) : Prop :=
  (evs = ["SOLICITADO"] ∧ m.fecha_entrega = none ∧ m.devuelto = false)
  ∨ (evs = ["SOLICITADO", "ENTREGADO"] ∧ m.fecha_entrega.isSome = true ∧ m.devuelto = false)
  ∨ (evs = ["SOLICITADO", "RECHAZADO"] ∧ m.fecha_entrega = none ∧ m.devuelto = false)
  ∨ (evs = ["SOLICITADO", "ENTREGADO", "DEVUELTO"] ∧ m.fecha_entrega.isSome = true ∧ m.devuelto = true)

/-- Store invariant: every ledger row points at an existing movement,
and every movement row matches its own ledger trace. -/
def Consistente (db : DB) : Prop :=
  (∀ e ∈ db.eventos, ∃ m ∈ db.movimientos, m.id = e.movimiento_id)
  ∧ (∀ m ∈ db.movimientos, SanoCon (eventos_de db m.id) m)

/-- The stores reachable from an empty movement/ledger table by the
four lifecycle operations: the persistence tail of `crear_movimiento`
and the three `marcar_*` transitions, with arbitrary arguments. -/
inductive Alcanzable : DB → Prop where
  | base (db : DB) (hm : db.movimientos = []) (he : db.eventos = []) :
      Alcanzable db
  | solicitar (db : DB) (hoy : Fecha) (s : SolicitudValidada)
      (h : Alcanzable db) : Alcanzable (insertar_movimiento db hoy s).2
  | entregar (db : DB) (mid uid : Nat) (hoy : String)
      (h : Alcanzable db) : Alcanzable (marcar_entregado db mid uid hoy).db
  | rechazar (db : DB) (mid uid : Nat) (hoy : String)
      (h : Alcanzable db) : Alcanzable (marcar_rechazado db mid uid hoy).db
  | devolver (db : DB) (mid uid : Nat) (hoy : String)
      (h : Alcanzable db) : Alcanzable (marcar_devuelto db mid uid hoy).db

theorem mem_le_foldr_max (l : List Nat) (x : Nat) (hx : x ∈ l) :
    x ≤ l.foldr max 0 := by
  induction l with
  | nil => cases hx
  | cons a t ih =>
    rcases List.mem_cons.mp hx with rfl | hx
    · exact le_max_left _ _
    · exact le_trans (ih hx) (le_max_right _ _)

theorem id_lt_proximo (db : DB) (m : Movimiento) (hm : m ∈ db.movimientos) :
    m.id < proximo_id db := by
  have hx : m.id ∈ db.movimientos.map (fun m => m.id) :=
    List.mem_map_of_mem _ hm
  exact Nat.lt_succ_of_le (mem_le_foldr_max _ _ hx)

theorem buscar_movimiento_spec (db : DB) (mid : Nat) (fila : Movimiento)
    (h : buscar_movimiento db mid = some fila) :
    fila ∈ db.movimientos ∧ fila.id = mid := by
  refine ⟨List.mem_of_find?_eq_some h, ?_⟩
  have := List.find?_some h
  simpa using this

theorem eventos_de_registrar (db : DB) (mid uid : Nat) (ev fecha : String)
    (k : Nat) :
    eventos_de (registrar_evento db mid uid ev fecha) k
      = eventos_de db k ++ (if mid = k then [ev] else []) := by
  by_cases h : mid = k <;>
    simp [eventos_de, registrar_evento, List.filter_append, h]

theorem rechazado_iff_en_eventos (db : DB) (k : Nat) :
    tiene_rechazado db k = true ↔ "RECHAZADO" ∈ eventos_de db k := by
  simp only [tiene_rechazado, eventos_de, List.any_eq_true, List.mem_map,
    List.mem_filter, Bool.and_eq_true, beq_iff_eq]
  constructor
  · rintro ⟨e, he, h1, h2⟩
    exact ⟨e, ⟨he, h1⟩, h2⟩
  · rintro ⟨e, ⟨he, h1⟩, h2⟩
    exact ⟨e, he, h1, h2⟩

/-- A trace equal to `[SOLICITADO]` pins the row to the requested
state. -/
theorem sano_con_solicitado (evs : List String) (m : Movimiento)
    (hs : SanoCon evs m) (hevs : evs = ["SOLICITADO"]) :
    m.fecha_entrega = none ∧ m.devuelto = false := by
  subst hevs
  rcases hs with ⟨h1, h2, h3⟩ | ⟨h1, h2, h3⟩ | ⟨h1, h2, h3⟩ | ⟨h1, h2, h3⟩ <;>
    first
    | exact ⟨h2, h3⟩
    | simp at h1

/-- A trace equal to `[SOLICITADO, ENTREGADO]` pins the row to the
delivered, unreturned state. -/
theorem sano_con_entregado (evs : List String) (m : Movimiento)
    (hs : SanoCon evs m) (hevs : evs = ["SOLICITADO", "ENTREGADO"]) :
    m.fecha_entrega.isSome = true ∧ m.devuelto = false := by
  subst hevs
  rcases hs with ⟨h1, h2, h3⟩ | ⟨h1, h2, h3⟩ | ⟨h1, h2, h3⟩ | ⟨h1, h2, h3⟩ <;>
    first
    | exact ⟨h2, h3⟩
    | simp at h1

/-- A row that is neither delivered nor rejected has the trace
`[SOLICITADO]`. -/
theorem evs_solicitado_de_guardas (db : DB) (m : Movimiento)
    (hs : SanoCon (eventos_de db m.id) m)
    (hfe : m.fecha_entrega.isSome = false)
    (hr : tiene_rechazado db m.id = false) :
    eventos_de db m.id = ["SOLICITADO"] := by
  rcases hs with ⟨h1, h2, h3⟩ | ⟨h1, h2, h3⟩ | ⟨h1, h2, h3⟩ | ⟨h1, h2, h3⟩
  · exact h1
  · rw [h2] at hfe; cases hfe
  · exfalso
    have : "RECHAZADO" ∈ eventos_de db m.id := by rw [h1]; simp
    rw [← rechazado_iff_en_eventos] at this
    rw [this] at hr; cases hr
  · rw [h2] at hfe; cases hfe

/-- A row that is delivered but not returned has the trace
`[SOLICITADO, ENTREGADO]`. -/
theorem evs_entregado_de_guardas (db : DB) (m : Movimiento)
    (hs : SanoCon (eventos_de db m.id) m)
    (hdev : m.devuelto = false)
    (hfe : m.fecha_entrega.isSome = true) :
    eventos_de db m.id = ["SOLICITADO", "ENTREGADO"] := by
  rcases hs with ⟨h1, h2, h3⟩ | ⟨h1, h2, h3⟩ | ⟨h1, h2, h3⟩ | ⟨h1, h2, h3⟩
  · rw [h2] at hfe; cases hfe
  · exact h1
  · rw [h2] at hfe; cases hfe
  · rw [h3] at hdev; cases hdev

/-- A ledger whose rows all point at stored movements has no rows for
the next (not yet allocated) movement id. -/
theorem eventos_de_fresco (db : DB)
    (href : ∀ e ∈ db.eventos, ∃ m ∈ db.movimientos, m.id = e.movimiento_id) :
    eventos_de db (proximo_id db) = [] := by
  unfold eventos_de
  rw [List.map_eq_nil_iff, List.filter_eq_nil_iff]
  intro e he
  obtain ⟨m, hm, hid⟩ := href e he
  have hlt := id_lt_proximo db m hm
  simp only [beq_iff_eq]
  omega

theorem insertar_eventos_de (db : DB) (hoy : Fecha) (s : SolicitudValidada)
    (k : Nat) :
    eventos_de (insertar_movimiento db hoy s).2 k
      = eventos_de db k ++ (if proximo_id db = k then ["SOLICITADO"] else []) := by
  by_cases h : proximo_id db = k <;>
    simp [insertar_movimiento, eventos_de, registrar_evento,
      List.filter_append, h]

/-- The persistence tail of a request preserves the store invariant:
the new row starts in the requested state with the single SOLICITADO
ledger row, and no other trace changes. -/
theorem consistente_insertar (db : DB) (hoy : Fecha) (s : SolicitudValidada)
    (h : Consistente db) : Consistente (insertar_movimiento db hoy s).2 := by
  obtain ⟨href, hmov⟩ := h
  have hfr : eventos_de db (proximo_id db) = [] := eventos_de_fresco db href
  have hmovs : (insertar_movimiento db hoy s).2.movimientos
      = db.movimientos ++ [fila_nueva db hoy s] := rfl
  have hevts : (insertar_movimiento db hoy s).2.eventos
      = db.eventos ++ [⟨proximo_id db, s.usuario_id, "SOLICITADO", hoy.iso, ""⟩] := rfl
  constructor
  · intro e he
    rw [hevts] at he
    rcases List.mem_append.mp he with he | he
    · obtain ⟨m, hm, hid⟩ := href e he
      refine ⟨m, ?_, hid⟩
      rw [hmovs]
      exact List.mem_append_left _ hm
    · have : e = ⟨proximo_id db, s.usuario_id, "SOLICITADO", hoy.iso, ""⟩ := by
        simpa using he
      subst this
      refine ⟨fila_nueva db hoy s, ?_, rfl⟩
      rw [hmovs]
      exact List.mem_append_right _ (by simp)
  · intro m hm
    rw [hmovs] at hm
    rcases List.mem_append.mp hm with hm | hm
    · have hne : proximo_id db ≠ m.id :=
        fun hc => absurd hc.symm (Nat.ne_of_lt (id_lt_proximo db m hm))
      have heq : eventos_de (insertar_movimiento db hoy s).2 m.id
          = eventos_de db m.id := by
        rw [insertar_eventos_de]
        simp [hne]
      rw [heq]
      exact hmov m hm
    · have : m = fila_nueva db hoy s := by simpa using hm
      subst this
      have hid : (fila_nueva db hoy s).id = proximo_id db := rfl
      have heq : eventos_de (insertar_movimiento db hoy s).2 (fila_nueva db hoy s).id
          = ["SOLICITADO"] := by
        rw [insertar_eventos_de, hid, hfr]
        simp
      rw [heq]
      exact Or.inl ⟨rfl, rfl, rfl⟩

/-- Marking a movement delivered preserves the store invariant: the
guards admit only rows in the requested state, whose trace then grows
to `[SOLICITADO, ENTREGADO]` in step with the delivery date. -/
theorem consistente_entregar (db : DB) (mid uid : Nat) (hoy : String)
    (h : Consistente db) : Consistente (marcar_entregado db mid uid hoy).db := by
  obtain ⟨href, hmov⟩ := h
  cases hb : buscar_movimiento db mid with
  | none =>
    have hdb : (marcar_entregado db mid uid hoy).db = db := by
      simp [marcar_entregado, hb]
    rw [hdb]; exact ⟨href, hmov⟩
  | some fila =>
    by_cases hr : tiene_rechazado db mid = true
    · have hdb : (marcar_entregado db mid uid hoy).db = db := by
        simp [marcar_entregado, hb, hr]
      rw [hdb]; exact ⟨href, hmov⟩
    · have hr' : tiene_rechazado db mid = false := eq_false_of_ne_true hr
      by_cases hf : fila.fecha_entrega.isSome = true
      · have hdb : (marcar_entregado db mid uid hoy).db = db := by
          simp [marcar_entregado, hb, hr', hf]
        rw [hdb]; exact ⟨href, hmov⟩
      · have hf' : fila.fecha_entrega.isSome = false := eq_false_of_ne_true hf
        obtain ⟨hfmem, hfid⟩ := buscar_movimiento_spec db mid fila hb
        have hevsS : eventos_de db mid = ["SOLICITADO"] := by
          have := evs_solicitado_de_guardas db fila (hmov fila hfmem) hf'
            (by rwa [hfid])
          rwa [hfid] at this
        have hres : (marcar_entregado db mid uid hoy).db
            = registrar_evento
                { db with movimientos := db.movimientos.map (fun m =>
                    if m.id == mid then { m with fecha_entrega := some hoy } else m) }
                mid uid "ENTREGADO" hoy := by
          simp [marcar_entregado, hb, hr', hf']
        rw [hres]
        have hevsnew : ∀ k,
            eventos_de (registrar_evento
              { db with movimientos := db.movimientos.map (fun m =>
                  if m.id == mid then { m with fecha_entrega := some hoy } else m) }
              mid uid "ENTREGADO" hoy) k
            = eventos_de db k ++ (if mid = k then ["ENTREGADO"] else []) := by
          intro k
          rw [eventos_de_registrar]
          rfl
        constructor
        · intro e he
          rcases List.mem_append.mp he with he | he
          · obtain ⟨m, hm, hid⟩ := href e he
            refine ⟨if m.id == mid then { m with fecha_entrega := some hoy } else m,
              List.mem_map_of_mem _ hm, ?_⟩
            by_cases hc : m.id = mid <;> simp [hc] <;> rw [← hid] <;> simp [hc]
          · have : e = ⟨mid, uid, "ENTREGADO", hoy, ""⟩ := by simpa using he
            subst this
            refine ⟨if fila.id == mid then { fila with fecha_entrega := some hoy } else fila,
              List.mem_map_of_mem _ hfmem, ?_⟩
            simp [hfid]
        · intro m' hm'
          obtain ⟨m, hm, rfl⟩ := List.mem_map.mp hm'
          by_cases hc : m.id = mid
          · have hmeq : (if (m.id == mid) then { m with fecha_entrega := some hoy } else m)
                = { m with fecha_entrega := some hoy } := by simp [hc]
            rw [hmeq]
            have hpin := sano_con_solicitado _ m (hmov m hm) (by rw [hc]; exact hevsS)
            rw [hevsnew]
            have hid2 : ({ m with fecha_entrega := some hoy } : Movimiento).id = m.id := rfl
            rw [hid2, hc, hevsS]
            refine Or.inr (Or.inl ⟨by simp, rfl, ?_⟩)
            exact hpin.2
          · have hmeq : (if (m.id == mid) then { m with fecha_entrega := some hoy } else m)
                = m := by simp [hc]
            rw [hmeq, hevsnew]
            have : mid ≠ m.id := fun hcc => hc hcc.symm
            simp only [this, if_false, List.append_nil]
            exact hmov m hm

/-- Marking a movement rejected preserves the store invariant: the
guards admit only rows in the requested state, whose trace then grows
to `[SOLICITADO, RECHAZADO]` with no row columns touched. -/
theorem consistente_rechazar (db : DB) (mid uid : Nat) (hoy : String)
    (h : Consistente db) : Consistente (marcar_rechazado db mid uid hoy).db := by
  obtain ⟨href, hmov⟩ := h
  cases hb : buscar_movimiento db mid with
  | none =>
    have hdb : (marcar_rechazado db mid uid hoy).db = db := by
      simp [marcar_rechazado, hb]
    rw [hdb]; exact ⟨href, hmov⟩
  | some fila =>
    by_cases hent : (fila.fecha_entrega.isSome || fila.devuelto) = true
    · have hdb : (marcar_rechazado db mid uid hoy).db = db := by
        simp [marcar_rechazado, hb, hent]
      rw [hdb]; exact ⟨href, hmov⟩
    · have hcond : (fila.fecha_entrega.isSome || fila.devuelto) = false :=
        eq_false_of_ne_true hent
      have hf' : fila.fecha_entrega.isSome = false := by
        rcases Bool.or_eq_false_iff.mp hcond with ⟨h1, h2⟩
        exact h1
      by_cases hr : tiene_rechazado db mid = true
      · have hdb : (marcar_rechazado db mid uid hoy).db = db := by
          simp [marcar_rechazado, hb, hcond, hr]
        rw [hdb]; exact ⟨href, hmov⟩
      · have hr' : tiene_rechazado db mid = false := eq_false_of_ne_true hr
        obtain ⟨hfmem, hfid⟩ := buscar_movimiento_spec db mid fila hb
        have hevsS : eventos_de db mid = ["SOLICITADO"] := by
          have := evs_solicitado_de_guardas db fila (hmov fila hfmem) hf'
            (by rwa [hfid])
          rwa [hfid] at this
        have hres : (marcar_rechazado db mid uid hoy).db
            = registrar_evento db mid uid "RECHAZADO" hoy := by
          simp [marcar_rechazado, hb, hcond, hr']
        rw [hres]
        have hevsnew : ∀ k,
            eventos_de (registrar_evento db mid uid "RECHAZADO" hoy) k
              = eventos_de db k ++ (if mid = k then ["RECHAZADO"] else []) :=
          fun k => eventos_de_registrar db mid uid "RECHAZADO" hoy k
        constructor
        · intro e he
          rcases List.mem_append.mp he with he | he
          · obtain ⟨m, hm, hid⟩ := href e he
            exact ⟨m, hm, hid⟩
          · have : e = ⟨mid, uid, "RECHAZADO", hoy, ""⟩ := by simpa using he
            subst this
            exact ⟨fila, hfmem, hfid⟩
        · intro m hm
          by_cases hc : m.id = mid
          · have hpin := sano_con_solicitado _ m (hmov m hm) (by rw [hc]; exact hevsS)
            rw [hevsnew, hc, hevsS]
            exact Or.inr (Or.inr (Or.inl ⟨by simp, hpin.1, hpin.2⟩))
          · rw [hevsnew]
            have : mid ≠ m.id := fun hcc => hc hcc.symm
            simp only [this, if_false, List.append_nil]
            exact hmov m hm

/-- Marking a movement returned preserves the store invariant: the
guards admit only delivered, unreturned rows, whose trace then grows
to `[SOLICITADO, ENTREGADO, DEVUELTO]` in step with the return date
and the returned flag. -/
theorem consistente_devolver (db : DB) (mid uid : Nat) (hoy : String)
    (h : Consistente db) : Consistente (marcar_devuelto db mid uid hoy).db := by
  obtain ⟨href, hmov⟩ := h
  cases hb : buscar_movimiento db mid with
  | none =>
    have hdb : (marcar_devuelto db mid uid hoy).db = db := by
      simp [marcar_devuelto, hb]
    rw [hdb]; exact ⟨href, hmov⟩
  | some fila =>
    by_cases hdev : fila.devuelto = true
    · have hdb : (marcar_devuelto db mid uid hoy).db = db := by
        simp [marcar_devuelto, hb, hdev]
      rw [hdb]; exact ⟨href, hmov⟩
    · have hdev' : fila.devuelto = false := eq_false_of_ne_true hdev
      by_cases hn : fila.fecha_entrega.isNone = true
      · have hdb : (marcar_devuelto db mid uid hoy).db = db := by
          simp [marcar_devuelto, hb, hdev', hn]
        rw [hdb]; exact ⟨href, hmov⟩
      · have hn' : fila.fecha_entrega.isNone = false := eq_false_of_ne_true hn
        have hsome : fila.fecha_entrega.isSome = true := by
          cases hx : fila.fecha_entrega with
          | none => rw [hx] at hn'; cases hn'
          | some v => rfl
        obtain ⟨hfmem, hfid⟩ := buscar_movimiento_spec db mid fila hb
        have hevsE : eventos_de db mid = ["SOLICITADO", "ENTREGADO"] := by
          have := evs_entregado_de_guardas db fila (hmov fila hfmem) hdev' hsome
          rwa [hfid] at this
        have hres : (marcar_devuelto db mid uid hoy).db
            = registrar_evento
                { db with movimientos := db.movimientos.map (fun m =>
                    if m.id == mid then
                      { m with fecha_devolucion := some hoy, devuelto := true } else m) }
                mid uid "DEVUELTO" hoy := by
          simp [marcar_devuelto, hb, hdev', hn']
        rw [hres]
        have hevsnew : ∀ k,
            eventos_de (registrar_evento
              { db with movimientos := db.movimientos.map (fun m =>
                  if m.id == mid then
                    { m with fecha_devolucion := some hoy, devuelto := true } else m) }
              mid uid "DEVUELTO" hoy) k
            = eventos_de db k ++ (if mid = k then ["DEVUELTO"] else []) := by
          intro k
          rw [eventos_de_registrar]
          rfl
        constructor
        · intro e he
          rcases List.mem_append.mp he with he | he
          · obtain ⟨m, hm, hid⟩ := href e he
            refine ⟨if m.id == mid then
                { m with fecha_devolucion := some hoy, devuelto := true } else m,
              List.mem_map_of_mem _ hm, ?_⟩
            by_cases hc : m.id = mid <;> simp [hc] <;> rw [← hid] <;> simp [hc]
          · have : e = ⟨mid, uid, "DEVUELTO", hoy, ""⟩ := by simpa using he
            subst this
            refine ⟨if fila.id == mid then
                { fila with fecha_devolucion := some hoy, devuelto := true } else fila,
              List.mem_map_of_mem _ hfmem, ?_⟩
            simp [hfid]
        · intro m' hm'
          obtain ⟨m, hm, rfl⟩ := List.mem_map.mp hm'
          by_cases hc : m.id = mid
          · have hmeq : (if (m.id == mid) then
                  { m with fecha_devolucion := some hoy, devuelto := true } else m)
                = { m with fecha_devolucion := some hoy, devuelto := true } := by
              simp [hc]
            rw [hmeq]
            have hpin := sano_con_entregado _ m (hmov m hm) (by rw [hc]; exact hevsE)
            rw [hevsnew]
            have hid2 : ({ m with fecha_devolucion := some hoy, devuelto := true } :
                Movimiento).id = m.id := rfl
            rw [hid2, hc, hevsE]
            refine Or.inr (Or.inr (Or.inr ⟨by simp, ?_, rfl⟩))
            exact hpin.1
          · have hmeq : (if (m.id == mid) then
                  { m with fecha_devolucion := some hoy, devuelto := true } else m)
                = m := by simp [hc]
            rw [hmeq, hevsnew]
            have : mid ≠ m.id := fun hcc => hc hcc.symm
            simp only [this, if_false, List.append_nil]
            exact hmov m hm

/-- Every reachable store satisfies the row/trace invariant. -/
theorem alcanzable_consistente (db : DB) (h : Alcanzable db) : Consistente db := by
  induction h with
  | base db hm he =>
    exact ⟨by simp [he], by simp [hm]⟩
  | solicitar db hoy s h ih => exact consistente_insertar db hoy s ih
  | entregar db mid uid hoy h ih => exact consistente_entregar db mid uid hoy ih
  | rechazar db mid uid hoy h ih => exact consistente_rechazar db mid uid hoy ih
  | devolver db mid uid hoy h ih => exact consistente_devolver db mid uid hoy ih

/-- C3: in every reachable store — movements created by the request
persistence path and driven by any sequence of `marcar_entregado`,
`marcar_rechazado` and `marcar_devuelto` calls — the ledger trace of
every movement id is a prefix of `[SOLICITADO, (ENTREGADO|RECHAZADO),
DEVUELTO]`: DEVUELTO only ever follows ENTREGADO, and RECHAZADO never
co-occurs with ENTREGADO or DEVUELTO on the same movement. -/
theorem c3_monotonia_bitacora (db : DB) (h : Alcanzable db) (mid : Nat) :
    SecuenciaValida (eventos_de db mid) := by
  obtain ⟨href, hmov⟩ := alcanzable_consistente db h
  by_cases hm : ∃ m ∈ db.movimientos, m.id = mid
  · obtain ⟨m, hmm, hid⟩ := hm
    have hsano := hmov m hmm
    rw [hid] at hsano
    rcases hsano with ⟨h1, -, -⟩ | ⟨h1, -, -⟩ | ⟨h1, -, -⟩ | ⟨h1, -, -⟩ <;> rw [h1]
    · exact Or.inr (Or.inl rfl)
    · exact Or.inr (Or.inr (Or.inl rfl))
    · exact Or.inr (Or.inr (Or.inr (Or.inl rfl)))
    · exact Or.inr (Or.inr (Or.inr (Or.inr rfl)))
  · have hvacio : eventos_de db mid = [] := by
      unfold eventos_de
      rw [List.map_eq_nil_iff, List.filter_eq_nil_iff]
      intro e he
      obtain ⟨m, hmm, hid⟩ := href e he
      simp only [beq_iff_eq]
      intro hc
      exact hm ⟨m, hmm, by rw [hid, hc]⟩
    rw [hvacio]
    exact Or.inl rfl

/-- A concrete reachable store: request movement 1, deliver it, then
return it. -/
def db_ciclo : DB :=
  (marcar_devuelto
    (marcar_entregado (insertar_movimiento db_demo ⟨2026, 10, 12⟩ solicitud_hoy).2
      1 1 "2026-10-12").db
    1 1 "2026-10-14").db

/-- Witness for C3: after a full request/deliver/return round trip the
trace of movement 1 is a valid sequence. -/
theorem c3_monotonia_bitacora_witness : SecuenciaValida (eventos_de db_ciclo 1) :=
  c3_monotonia_bitacora db_ciclo
    (Alcanzable.devolver _ 1 1 "2026-10-14"
      (Alcanzable.entregar _ 1 1 "2026-10-12"
        (Alcanzable.solicitar db_demo ⟨2026, 10, 12⟩ solicitud_hoy
          (Alcanzable.base db_demo rfl rfl)))) 1
